import Mathlib

/-!
Shallow embedding of the kong-http-log ingestion pipeline (`main.go`):
the time-rotating file writer (`TimeRotatingFileHandler`, `newLogHandler`,
`doRollover`, `Write`), the worker loop (`handleLog`) and the ingress
endpoint handler.  External OS and library calls (`os.Rename`,
`os.OpenFile`, `os.MkdirAll`, `fmt.Fprintln`, `time.Time.Format`) are
modelled by explicit oracle arguments for their fallible outcomes and by a
trace of `Event`s recording, in program order, the filesystem and
lock operations the code performs.  Unix timestamps (`int64` seconds) are
modelled as `Int`; the `uint64` counter is a `Nat` reduced mod `2 ^ 64` at
each increment, matching Go wrap-around semantics.
-/

namespace KongLog

/-- The granularity constants of the `WhenSecond = iota` block in `main.go`
(`WhenSecond = 0`, `WhenMinute = 1`, `WhenHour = 2`, `WhenDay = 3`). -/
def WhenSecond : Int := 0

/-- Constant `WhenMinute = 1` from the `iota` block. -/
def WhenMinute : Int := 1

/-- Constant `WhenHour = 2` from the `iota` block. -/
def WhenHour : Int := 2

/-- Constant `WhenDay = 3` from the `iota` block. -/
def WhenDay : Int := 3

/-- Filesystem and synchronization operations performed by the writer,
recorded in program order.  `lock`/`unlock` are `l.mux.Lock()` and
`l.mux.Unlock()`; `closeFile` is `l.fd.Close()`; `rename` is `os.Rename`;
`openFile` is `os.OpenFile`; `append` is the `fmt.Fprintln` call (the bytes
carried are the payload plus the newline terminator it writes);
`mkdirAll` is `os.MkdirAll`. -/
inductive Event where
  | lock
  | unlock
  | closeFile
  | rename (src dst : String)
  | openFile (p : String)
  | append (bytes : List Nat)
  | mkdirAll (dir : String)
  deriving Repr, DecidableEq

/-- The `TimeRotatingFileHandler` struct of `main.go`.  The `*os.File`
field `fd` is modelled as an optional handle identifier: `none` models a
nil handle (as left behind by a failed reopen whose error the source
discards with `l.fd, _ = os.OpenFile(...)`).  The `sync.Mutex` field has
no data content; its acquisition order is recorded in the event trace. -/
structure TimeRotatingFileHandler where
  fd : Option Nat
  baseName : String
  interval : Int
  suffix : String
  rolloverAt : Int
  deriving Repr, DecidableEq

/-- The slice of the filesystem the writer touches: the byte contents of
the active file at `baseName`, the rolled-over files produced by
`os.Rename` (newest first), and a counter supplying fresh handle
identifiers for reopened files. -/
structure FS where
  active : List Nat
  rotated : List (String × List Nat)
  nextFd : Nat
  deriving Repr, DecidableEq

/-- The characters before the last `'/'` of a path, `none` when the path
contains no slash. -/
def dirChars : List Char → Option (List Char)
  | [] => none
  | c :: rest =>
    match dirChars rest with
    | some d => some (c :: d)
    | none => if c = '/' then some [] else none

/-- Modelled from Go `path.Dir(p)`: the directory portion of `p` (the part
before the final slash; `"."` when `p` contains no slash; the
`path.Clean` normalization Go applies afterwards is not modelled).  No
claim inspects this value; it only names the directory in the `mkdirAll`
event. -/
def pathDir (p : String) : String :=
  match dirChars p.data with
  | none => "."
  | some d => String.mk d

/-- Errors returned by `newLogHandler`: `invalidWhen` is the
`fmt.Errorf("invalid when_rotate: %d", when)` of the default switch branch
(the spec's `ConfigError`); `io` wraps an operating-system error string
(the spec's `IOError`). -/
inductive GoErr where
  | invalidWhen (w : Int)
  | io (e : String)
  deriving Repr, DecidableEq

/-- The `switch when` block of `newLogHandler`: the base interval in
seconds and the timestamp layout assigned for each granularity, `none`
for the default (error) branch. -/
def whenParams (whenv : Int) : Option (Int × String) :=
  if whenv = WhenSecond then some (1, "2006-01-02_15-04-05")
  else if whenv = WhenMinute then some (60, "2006-01-02_15-04")
  else if whenv = WhenHour then some (3600, "2006-01-02_15")
  else if whenv = WhenDay then some (3600 * 24, "2006-01-02")
  else none

/-- The constructor `newLogHandler(baseName, when, interval)` of `main.go`.  Oracle
arguments: `mkdirErr` is the outcome of `os.MkdirAll` (whose error the
source discards), `openErr` the outcome of `os.OpenFile`, and `modTime`
the `ModTime().Unix()` of the opened file's `Stat`.  Returns the
constructed handler or the error, paired with the trace of effects
performed.  Mirrors the source order: `MkdirAll` first (error ignored),
then the granularity switch (returning before any open on the default
branch), then `interval = interval * multiplier`, then the open, then
`rolloverAt = modTime + interval`. -/
def newLogHandler (baseName : String) (whenv : Int) (interval : Int)
    (mkdirErr openErr : Option String) (modTime : Int) :
    Except GoErr TimeRotatingFileHandler × List Event :=
  let dir := pathDir baseName
  let evs0 := [Event.mkdirAll dir]
  match whenParams whenv with
  | none => (Except.error (GoErr.invalidWhen whenv), evs0)
  | some bs =>
    let itv := bs.1 * interval
    match openErr with
    | some e => (Except.error (GoErr.io e), evs0 ++ [Event.openFile baseName])
    | none =>
      (Except.ok
        { fd := some 0, baseName := baseName, interval := itv,
          suffix := bs.2, rolloverAt := modTime + itv },
       evs0 ++ [Event.openFile baseName])

/-- Result of `doRollover`: either a normal return with the updated
handler, filesystem and trace of effects, or a Go `panic(e)` (taken when
`os.Rename` fails), carrying the effects performed before the panic. -/
inductive RolloverOutcome where
  | ok (l : TimeRotatingFileHandler) (fs : FS) (evs : List Event)
  | panicked (e : String) (evs : List Event)
  deriving Repr, DecidableEq

/-- The method `doRollover` of `main.go`.  The source reads `time.Now()` twice: once
at entry (`now`, used for the due-check and the rename timestamp) and once
more when computing the new `rolloverAt` (`now2`).  `renameErr` and
`reopenErr` are the oracle outcomes of `os.Rename` and of the reopening
`os.OpenFile`; `fmtTime` models `time.Time.Format` applied to a layout
string.  On the due branch the source closes the handle, renames the base
file (panicking if that fails), reopens the base path discarding the error
(`l.fd, _ = ...`, leaving a nil handle on failure), and sets
`rolloverAt = now2 + interval`. -/
def doRollover (l : TimeRotatingFileHandler) (fs : FS) (now now2 : Int)
    (renameErr reopenErr : Option String) (fmtTime : String → Int → String) :
    RolloverOutcome :=
  if l.rolloverAt ≤ now then
    let fName := l.baseName ++ fmtTime l.suffix now
    match renameErr with
    | some e => RolloverOutcome.panicked e [Event.closeFile, Event.rename l.baseName fName]
    | none =>
      let fd1 : Option Nat :=
        match reopenErr with
        | some _ => none
        | none => some fs.nextFd
      RolloverOutcome.ok
        { l with fd := fd1, rolloverAt := now2 + l.interval }
        { active := [], rotated := (fName, fs.active) :: fs.rotated,
          nextFd := fs.nextFd + 1 }
        [Event.closeFile, Event.rename l.baseName fName, Event.openFile l.baseName]
  else RolloverOutcome.ok l fs []

/-- The error `fmt.Fprintln` reports when the receiver `*os.File` is nil
(`os.ErrInvalid`, "invalid argument"). -/
def invalidFdErr : String := "invalid argument"

/-- Model of `fmt.Fprintln(fd, string(p))`: writes the bytes of `p` followed by one
newline (byte `10`) to the active file and returns `len(p) + 1`; returns
an error without writing when the handle is nil or when the underlying
write fails (`appendErr` oracle). -/
def fprintln (fd : Option Nat) (fs : FS) (p : List Nat)
    (appendErr : Option String) : FS × Int × Option String :=
  match fd with
  | none => (fs, 0, some invalidFdErr)
  | some _ =>
    match appendErr with
    | some e => (fs, 0, some e)
    | none => ({ fs with active := fs.active ++ p ++ [10] }, (p.length : Int) + 1, none)

/-- Result of `Write`: the updated handler and filesystem, the returned
`(n, err)` pair, and the trace of effects; or a propagated panic. -/
structure WriteResult where
  l : TimeRotatingFileHandler
  fs : FS
  n : Int
  err : Option String
  evs : List Event
  deriving Repr, DecidableEq

/-- Outcome of a `Write` call: normal return or propagated panic. -/
inductive WriteOutcome where
  | ok (r : WriteResult)
  | panicked (e : String) (evs : List Event)
  deriving Repr, DecidableEq

/-- The method `Write` of `main.go`:
`l.mux.Lock(); l.doRollover(); l.mux.Unlock(); return fmt.Fprintln(l.fd, string(p))`.
The unlock precedes the `Fprintln` call in the source, so the `append`
event is recorded after the `unlock` event; a panic inside `doRollover`
propagates without ever reaching `mux.Unlock()` (there is no `defer`). -/
def Write (l : TimeRotatingFileHandler) (fs : FS) (p : List Nat)
    (now now2 : Int) (renameErr reopenErr appendErr : Option String)
    (fmtTime : String → Int → String) : WriteOutcome :=
  match doRollover l fs now now2 renameErr reopenErr fmtTime with
  | RolloverOutcome.panicked e evs => WriteOutcome.panicked e (Event.lock :: evs)
  | RolloverOutcome.ok l1 fs1 evs =>
    let res := fprintln l1.fd fs1 p appendErr
    WriteOutcome.ok
      { l := l1, fs := res.1, n := res.2.1, err := res.2.2,
        evs := Event.lock :: evs ++ [Event.unlock, Event.append (p ++ [10])] }

/-- The event trace of a `Write` outcome. -/
def eventsOfWrite : WriteOutcome → List Event
  | WriteOutcome.ok r => r.evs
  | WriteOutcome.panicked _ evs => evs

/-- The event trace of a `doRollover` outcome. -/
def eventsOfRollover : RolloverOutcome → List Event
  | RolloverOutcome.ok _ _ evs => evs
  | RolloverOutcome.panicked _ evs => evs

/-- Annotates each event of a trace with whether the writer's exclusion
lock is held at the moment the event is performed (the `lock` event itself
counts as held, the `unlock` event as no longer held). -/
def lockHeldFlags : Bool → List Event → List (Event × Bool)
  | _, [] => []
  | _, Event.lock :: rest => (Event.lock, true) :: lockHeldFlags true rest
  | _, Event.unlock :: rest => (Event.unlock, false) :: lockHeldFlags false rest
  | held, e :: rest => (e, held) :: lockHeldFlags held rest

/-- Is this event the payload append (`fmt.Fprintln`)? -/
def isAppend : Event → Bool
  | Event.append _ => true
  | _ => false

/-- Is this event one of the rollover steps (close, rename, reopen)? -/
def isRolloverStep : Event → Bool
  | Event.closeFile => true
  | Event.rename _ _ => true
  | Event.openFile _ => true
  | _ => false

/-- Is this event the close of the active file (the unconditional first
action of the taken rollover branch)? -/
def isCloseEv : Event → Bool
  | Event.closeFile => true
  | _ => false

/-- Every `append` event of the trace happens while the lock is held. -/
def appendsInsideLock (evs : List Event) : Bool :=
  (lockHeldFlags false evs).all fun eb => !isAppend eb.1 || eb.2

/-- Every `append` event of the trace happens while the lock is NOT held. -/
def appendsOutsideLock (evs : List Event) : Bool :=
  (lockHeldFlags false evs).all fun eb => !isAppend eb.1 || !eb.2

/-- Every rollover step (close, rename, reopen) of the trace happens while
the lock is held. -/
def rolloverStepsInsideLock (evs : List Event) : Bool :=
  (lockHeldFlags false evs).all fun eb => !isRolloverStep eb.1 || eb.2

/-- A `doRollover` outcome actually performed a rollover (its trace
contains the close of the active file). -/
def rolloverTriggered (o : RolloverOutcome) : Bool :=
  (eventsOfRollover o).any isCloseEv

/-- Predicate: `Write` returned normally with `err` equal to the given error. -/
def writeReturnsErr (o : WriteOutcome) (e : String) : Bool :=
  match o with
  | WriteOutcome.ok r => r.err = some e
  | WriteOutcome.panicked _ _ => false

/-- Predicate: `newLogHandler` returned an error. -/
def returnsError {α : Type} : Except GoErr α → Bool
  | Except.error _ => true
  | Except.ok _ => false

/-- The granularity is one the switch of `newLogHandler` accepts. -/
def validWhen (w : Int) : Bool := (whenParams w).isSome

/-- One iteration body of a worker's write sequence (rename, reopen and
append all succeeding): the handler/filesystem pair after `Write` with a
payload and the two clock readings of the call. -/
def writeStep (fmtTime : String → Int → String)
    (l : TimeRotatingFileHandler) (fs : FS) (c : List Nat × Int × Int) :
    TimeRotatingFileHandler × FS :=
  match Write l fs c.1 c.2.1 c.2.2 none none none fmtTime with
  | WriteOutcome.ok r => (r.l, r.fs)
  | WriteOutcome.panicked _ _ => (l, fs)

/-- A sequence of `Write` calls, each given by a payload and the two clock
readings of its `doRollover`, threaded through the handler and filesystem
(all OS oracles succeeding, so no panic occurs). -/
def writeSeq (fmtTime : String → Int → String) :
    TimeRotatingFileHandler → FS → List (List Nat × Int × Int) →
    TimeRotatingFileHandler × FS
  | l, fs, [] => (l, fs)
  | l, fs, c :: rest => writeSeq fmtTime (writeStep fmtTime l fs c).1 (writeStep fmtTime l fs c).2 rest

/-- The worker loop `handleLog` of `main.go`, over the payloads it
dequeues from the channel: `writer.Write(json)` with both returned values
discarded, then `c.handledNum++` on the `uint64` counter (mod `2 ^ 64`).
The writer is the abstract `Handler` interface of the source, modelled as
a state-threading write function over an arbitrary state type. -/
def handleLog {σ : Type} (write : List Nat → σ → σ × Int × Option String) :
    List (List Nat) → σ → Nat → σ × Nat
  | [], s, h => (s, h)
  | p :: rest, s, h => handleLog write rest (write p s).1 ((h + 1) % 2 ^ 64)

/-- Outcome of `c.GetRawData()` in the POST handler: an error, or the raw
body bytes. -/
inductive BodyResult where
  | failed (e : String)
  | got (data : List Nat)
  deriving Repr, DecidableEq

/-- An HTTP response as produced by `c.JSON(status, body)`. -/
structure HttpResponse where
  status : Nat
  body : String
  deriving Repr, DecidableEq

/-- The response `c.JSON(http.StatusOK, gin.H\x7b"status": "ok"\x7d)`
serializes to. -/
def okResponse : HttpResponse := { status := 200, body := "\x7b\"status\":\"ok\"\x7d" }

/-- The `POST /kong-log` handler of `main.go`: on a body-read error it
responds 200 ok and returns without enqueueing; otherwise it sends the
payload to the channel and responds 200 ok.  Returns the response and the
payload enqueued (if any). -/
def kongLogHandler (r : BodyResult) : HttpResponse × Option (List Nat) :=
  match r with
  | BodyResult.failed _ => (okResponse, none)
  | BodyResult.got d => (okResponse, some d)

/-- Case analysis of a successful `doRollover`: the interval is never
changed, and either the rollover was not due and nothing happened, or it
was due and `rolloverAt` became `now2 + interval` (`now2` being the second
`time.Now()` reading). -/
theorem doRollover_ok_cases (l : TimeRotatingFileHandler) (fs : FS) (now now2 : Int)
    (rE oE : Option String) (f : String → Int → String)
    (l1 : TimeRotatingFileHandler) (fs1 : FS) (evs : List Event)
    (h : doRollover l fs now now2 rE oE f = RolloverOutcome.ok l1 fs1 evs) :
    l1.interval = l.interval ∧
    ((¬ l.rolloverAt ≤ now ∧ l1 = l ∧ fs1 = fs ∧ evs = []) ∨
     (l.rolloverAt ≤ now ∧ l1.rolloverAt = now2 + l.interval)) := by
  unfold doRollover at h
  by_cases hd : l.rolloverAt ≤ now
  · rw [if_pos hd] at h
    cases rE with
    | some e => exact (RolloverOutcome.noConfusion h)
    | none =>
      injection h with h1 h2 h3
      subst h1
      exact ⟨rfl, Or.inr ⟨hd, rfl⟩⟩
  · rw [if_neg hd] at h
    injection h with h1 h2 h3
    subst h1
    exact ⟨rfl, Or.inl ⟨hd, rfl, h2.symm, h3.symm⟩⟩

/-- With no rename error `doRollover` always returns normally, keeping the
interval and either keeping `rolloverAt` or advancing it to
`now2 + interval` when due. -/
theorem doRollover_none_ok (l : TimeRotatingFileHandler) (fs : FS) (now now2 : Int)
    (oE : Option String) (f : String → Int → String) :
    ∃ l1 fs1 evs, doRollover l fs now now2 none oE f = RolloverOutcome.ok l1 fs1 evs := by
  unfold doRollover
  by_cases hd : l.rolloverAt ≤ now
  · rw [if_pos hd]
    exact ⟨_, _, _, rfl⟩
  · rw [if_neg hd]
    exact ⟨_, _, _, rfl⟩

/-- Behavior of `Write` after a successful `doRollover`: the outcome is a normal
return whose fields come from `fprintln` on the post-rollover handle. -/
theorem write_ok_of_rollover_ok (l : TimeRotatingFileHandler) (fs : FS) (p : List Nat)
    (now now2 : Int) (rE oE aE : Option String) (f : String → Int → String)
    (l1 : TimeRotatingFileHandler) (fs1 : FS) (evs : List Event)
    (h : doRollover l fs now now2 rE oE f = RolloverOutcome.ok l1 fs1 evs) :
    Write l fs p now now2 rE oE aE f =
      WriteOutcome.ok
        { l := l1, fs := (fprintln l1.fd fs1 p aE).1,
          n := (fprintln l1.fd fs1 p aE).2.1, err := (fprintln l1.fd fs1 p aE).2.2,
          evs := Event.lock :: evs ++ [Event.unlock, Event.append (p ++ [10])] } := by
  unfold Write
  rw [h]

/-- The handler component of one `writeStep` is the handler produced by
the underlying `doRollover`. -/
theorem writeStep_fst (f : String → Int → String) (l : TimeRotatingFileHandler)
    (fs : FS) (c : List Nat × Int × Int) :
    ∃ l1 fs1 evs, doRollover l fs c.2.1 c.2.2 none none f = RolloverOutcome.ok l1 fs1 evs ∧
      (writeStep f l fs c).1 = l1 := by
  obtain ⟨l1, fs1, evs, heq⟩ := doRollover_none_ok l fs c.2.1 c.2.2 none f
  refine ⟨l1, fs1, evs, heq, ?_⟩
  unfold writeStep
  rw [write_ok_of_rollover_ok l fs c.1 c.2.1 c.2.2 none none none f l1 fs1 evs heq]

/-- Along a `writeSeq` whose calls each read a monotone clock
(`now ≤ now2` within the call), `rolloverAt` never decreases. -/
theorem writeSeq_rolloverAt_mono (f : String → Int → String)
    (calls : List (List Nat × Int × Int)) :
    ∀ (l : TimeRotatingFileHandler) (fs : FS), 1 ≤ l.interval →
      (∀ c ∈ calls, c.2.1 ≤ c.2.2) →
      l.rolloverAt ≤ (writeSeq f l fs calls).1.rolloverAt := by
  induction calls with
  | nil => intro l fs _ _; exact le_refl _
  | cons c rest ih =>
    intro l fs h1 h2
    obtain ⟨l1, fs1, evs, heq, hstep⟩ := writeStep_fst f l fs c
    obtain ⟨hint, hro⟩ := doRollover_ok_cases l fs c.2.1 c.2.2 none none f l1 fs1 evs heq
    have hcc : c.2.1 ≤ c.2.2 := h2 c (List.mem_cons_self _ _)
    have hmono : l.rolloverAt ≤ l1.rolloverAt := by
      rcases hro with ⟨_, rfl, _, _⟩ | ⟨hdue, hra⟩
      · exact le_refl _
      · rw [hra]; omega
    have hrest : l1.rolloverAt ≤ (writeSeq f l1 (writeStep f l fs c).2 rest).1.rolloverAt := by
      refine ih l1 _ ?_ ?_
      · rw [hint]; exact h1
      · exact fun c' hc' => h2 c' (List.mem_cons_of_mem _ hc')
    calc l.rolloverAt ≤ l1.rolloverAt := hmono
      _ ≤ (writeSeq f l1 (writeStep f l fs c).2 rest).1.rolloverAt := hrest
      _ = (writeSeq f l fs (c :: rest)).1.rolloverAt := by
          rw [writeSeq, hstep]

/-- C3: for a writer with `interval ≥ 1`, `rolloverAt` never decreases —
neither across a single `doRollover` whose two `time.Now()` readings are
monotone (`now ≤ now2`), nor along any sequence of `Write` calls — and
whenever a write finds rollover due at clock time `now`
(`rolloverAt ≤ now`, both readings equal), the new `rolloverAt` is exactly
`now + interval`, regardless of how many intervals `now` lies past the old
`rolloverAt` (missed boundaries are skipped, not back-filled). -/
theorem rolloverAt_monotone_and_lazy :
    (∀ (l : TimeRotatingFileHandler) (fs : FS) (now now2 : Int)
       (rE oE : Option String) (f : String → Int → String)
       (l1 : TimeRotatingFileHandler) (fs1 : FS) (evs : List Event),
       1 ≤ l.interval → now ≤ now2 →
       doRollover l fs now now2 rE oE f = RolloverOutcome.ok l1 fs1 evs →
       l.rolloverAt ≤ l1.rolloverAt) ∧
    (∀ (f : String → Int → String) (l : TimeRotatingFileHandler) (fs : FS)
       (calls : List (List Nat × Int × Int)),
       1 ≤ l.interval → (∀ c ∈ calls, c.2.1 ≤ c.2.2) →
       l.rolloverAt ≤ (writeSeq f l fs calls).1.rolloverAt) ∧
    (∀ (l : TimeRotatingFileHandler) (fs : FS) (now : Int)
       (rE oE : Option String) (f : String → Int → String)
       (l1 : TimeRotatingFileHandler) (fs1 : FS) (evs : List Event),
       l.rolloverAt ≤ now →
       doRollover l fs now now rE oE f = RolloverOutcome.ok l1 fs1 evs →
       l1.rolloverAt = now + l.interval) := by
  refine ⟨?_, ?_, ?_⟩
  · intro l fs now now2 rE oE f l1 fs1 evs h1 h2 h
    obtain ⟨hint, hro⟩ := doRollover_ok_cases l fs now now2 rE oE f l1 fs1 evs h
    rcases hro with ⟨_, rfl, _, _⟩ | ⟨hdue, hra⟩
    · exact le_refl _
    · rw [hra]; omega
  · intro f l fs calls h1 h2
    exact writeSeq_rolloverAt_mono f calls l fs h1 h2
  · intro l fs now rE oE f l1 fs1 evs hdue h
    obtain ⟨hint, hro⟩ := doRollover_ok_cases l fs now now rE oE f l1 fs1 evs h
    rcases hro with ⟨hnot, _, _, _⟩ | ⟨_, hra⟩
    · exact absurd hdue hnot
    · exact hra

/-- Witness for C3 at a concrete writer (`interval = 5`,
`rolloverAt = 10`) and a concrete two-call sequence, plus the exact
`now + interval` update at a due write. -/
theorem rolloverAt_monotone_and_lazy_witness :
    ((⟨some 0, "b", 5, "s", 10⟩ : TimeRotatingFileHandler).rolloverAt ≤
      (writeSeq (fun _ _ => "") ⟨some 0, "b", 5, "s", 10⟩ ⟨[1], [], 1⟩
        [([65], 12, 12), ([66], 13, 14)]).1.rolloverAt) ∧
    ((⟨some 1, "b", 5, "s", 17⟩ : TimeRotatingFileHandler).rolloverAt = 12 + 5) :=
  ⟨rolloverAt_monotone_and_lazy.2.1 (fun _ _ => "") ⟨some 0, "b", 5, "s", 10⟩ ⟨[1], [], 1⟩
    [([65], 12, 12), ([66], 13, 14)] (by decide) (by decide),
   rolloverAt_monotone_and_lazy.2.2 ⟨some 0, "b", 5, "s", 10⟩ ⟨[1], [], 1⟩ 12 none none
    (fun _ _ => "") ⟨some 1, "b", 5, "s", 17⟩ ⟨[], [("b", [1])], 2⟩
    [Event.closeFile, Event.rename "b" "b", Event.openFile "b"] (by decide) rfl⟩

/-- C5: one worker loop over the payloads it dequeues advances
`handledCount` by exactly one per payload — after `K` payloads the
`uint64` counter holds `(initial + K) mod 2 ^ 64`, hence exactly
`initial + K` absent wrap-around — independently of the values and errors
the forwarded `Write` returns. -/
theorem handleLog_counts_every_payload {σ : Type}
    (write : List Nat → σ → σ × Int × Option String)
    (ps : List (List Nat)) (s : σ) (h0 : Nat) (hb : h0 < 2 ^ 64) :
    (handleLog write ps s h0).2 = (h0 + ps.length) % 2 ^ 64 ∧
    (h0 + ps.length < 2 ^ 64 → (handleLog write ps s h0).2 = h0 + ps.length) := by
  have main : ∀ (ps : List (List Nat)) (s : σ) (h0 : Nat), h0 < 2 ^ 64 →
      (handleLog write ps s h0).2 = (h0 + ps.length) % 2 ^ 64 := by
    intro ps
    induction ps with
    | nil =>
      intro s h0 hb0
      simp only [handleLog, List.length_nil, Nat.add_zero]
      exact (Nat.mod_eq_of_lt hb0).symm
    | cons p rest ih =>
      intro s h0 hb0
      simp only [handleLog, List.length_cons]
      rw [ih (write p s).1 ((h0 + 1) % 2 ^ 64) (Nat.mod_lt _ (by positivity)),
        Nat.mod_add_mod]
      congr 1
      omega
  refine ⟨main ps s h0 hb, fun hlt => ?_⟩
  rw [main ps s h0 hb]
  exact Nat.mod_eq_of_lt hlt

/-- Witness for C5: three payloads, a write that always errors, counter
starting at 5 and ending at 8. -/
theorem handleLog_counts_every_payload_witness :
    (handleLog (fun _ (s : Unit) => (s, 0, some "e")) [[65], [66], [67]] () 5).2 = 8 :=
  (handleLog_counts_every_payload (fun _ (s : Unit) => (s, 0, some "e"))
    [[65], [66], [67]] () 5 (by norm_num)).2 (by norm_num)

/-- C6: the `POST /kong-log` handler responds HTTP 200 with body
`\x7b"status":"ok"\x7d` both when the body read fails (enqueueing nothing)
and when the payload is enqueued; the write outcome never enters. -/
theorem kongLog_endpoint_always_ok (e : String) (d : List Nat) :
    kongLogHandler (BodyResult.failed e) = (okResponse, none) ∧
    kongLogHandler (BodyResult.got d) = (okResponse, some d) ∧
    okResponse.status = 200 ∧ okResponse.body = "\x7b\"status\":\"ok\"\x7d" :=
  ⟨rfl, rfl, rfl, rfl⟩

/-- C7: `doRollover` performs a rollover exactly when
`rolloverAt ≤ now` holds for the first clock reading; in particular the
tie `now = rolloverAt` does trigger the rollover. -/
theorem rollover_due_check_iff
    (l : TimeRotatingFileHandler) (fs : FS) (now now2 : Int)
    (rE oE : Option String) (f : String → Int → String) :
    (rolloverTriggered (doRollover l fs now now2 rE oE f) = true ↔ l.rolloverAt ≤ now) ∧
    rolloverTriggered (doRollover l fs l.rolloverAt now2 rE oE f) = true := by
  have key : ∀ (n : Int),
      rolloverTriggered (doRollover l fs n now2 rE oE f) = true ↔ l.rolloverAt ≤ n := by
    intro n
    unfold doRollover
    by_cases hd : l.rolloverAt ≤ n
    · rw [if_pos hd]
      cases rE <;>
        simp [rolloverTriggered, eventsOfRollover, isCloseEv, hd]
    · rw [if_neg hd]
      simp [rolloverTriggered, eventsOfRollover, hd]
  exact ⟨key now, (key l.rolloverAt).mpr le_rfl⟩

/-- Witness for C7: the boundary tie (`now = rolloverAt = 10`) triggers
the rollover. -/
theorem rollover_due_check_iff_witness :
    rolloverTriggered (doRollover ⟨some 0, "b", 5, "s", 10⟩ ⟨[], [], 1⟩ 10 10
      none none (fun _ _ => "")) = true :=
  (rollover_due_check_iff ⟨some 0, "b", 5, "s", 10⟩ ⟨[], [], 1⟩ 10 10
    none none (fun _ _ => "")).1.mpr (by decide)

/-- C8: for every multiplier `m`, the constructor sets
`interval = base * m` with base 1/60/3600/86400 seconds and pairs each
granularity with its rename-timestamp layout: second →
`2006-01-02_15-04-05`, minute → `2006-01-02_15-04`, hour →
`2006-01-02_15`, day → `2006-01-02`. -/
theorem newLogHandler_interval_and_suffix (b : String) (m : Int)
    (mk : Option String) (mt : Int) :
    newLogHandler b WhenSecond m mk none mt =
      (Except.ok
        { fd := some 0, baseName := b, interval := 1 * m,
          suffix := "2006-01-02_15-04-05", rolloverAt := mt + 1 * m },
       [Event.mkdirAll (pathDir b), Event.openFile b]) ∧
    newLogHandler b WhenMinute m mk none mt =
      (Except.ok
        { fd := some 0, baseName := b, interval := 60 * m,
          suffix := "2006-01-02_15-04", rolloverAt := mt + 60 * m },
       [Event.mkdirAll (pathDir b), Event.openFile b]) ∧
    newLogHandler b WhenHour m mk none mt =
      (Except.ok
        { fd := some 0, baseName := b, interval := 3600 * m,
          suffix := "2006-01-02_15", rolloverAt := mt + 3600 * m },
       [Event.mkdirAll (pathDir b), Event.openFile b]) ∧
    newLogHandler b WhenDay m mk none mt =
      (Except.ok
        { fd := some 0, baseName := b, interval := 3600 * 24 * m,
          suffix := "2006-01-02", rolloverAt := mt + 3600 * 24 * m },
       [Event.mkdirAll (pathDir b), Event.openFile b]) :=
  ⟨rfl, rfl, rfl, rfl⟩

/-- C1 counterexample: at a concrete `Write` call (writer due for
rollover at `rolloverAt = 10`, clock 12), the payload append event occurs
while the exclusion lock is NOT held — the source unlocks before
`fmt.Fprintln` — so the claimed single critical section around
check-rollover-append is false. -/
theorem write_append_escapes_critical_section :
    appendsInsideLock (eventsOfWrite (Write
      ⟨some 0, "b", 5, "s", 10⟩ ⟨[1, 2], [], 1⟩
      [65] 12 12 none none none (fun _ _ => ""))) = false := by
  decide

/-- C1 (amended): on every `Write` call the rollover due-check and any
resulting rollover steps (close, rename, reopen) execute while the
writer's exclusion lock is held, but the append of the payload executes
after the lock has been released — outside the critical section. -/
theorem write_lock_covers_rollover_not_append
    (l : TimeRotatingFileHandler) (fs : FS) (p : List Nat) (now now2 : Int)
    (rE oE aE : Option String) (f : String → Int → String) :
    rolloverStepsInsideLock (eventsOfWrite (Write l fs p now now2 rE oE aE f)) = true ∧
    appendsOutsideLock (eventsOfWrite (Write l fs p now now2 rE oE aE f)) = true := by
  unfold Write doRollover
  by_cases hd : l.rolloverAt ≤ now
  · rw [if_pos hd]
    cases rE with
    | some e =>
      simp [eventsOfWrite, rolloverStepsInsideLock, appendsOutsideLock,
        lockHeldFlags, isRolloverStep, isAppend]
    | none =>
      simp [eventsOfWrite, rolloverStepsInsideLock, appendsOutsideLock,
        lockHeldFlags, isRolloverStep, isAppend]
  · rw [if_neg hd]
    simp [eventsOfWrite, rolloverStepsInsideLock, appendsOutsideLock,
      lockHeldFlags, isRolloverStep, isAppend]

/-- C2 counterexample: when the rename fails (`"boom"`), `Write` panics
rather than returning the error; when the reopen fails (`"denied"`), the
error is discarded and `Write` returns the nil-handle append error
instead.  In neither case does the caller receive the rollover error. -/
theorem write_rollover_error_not_returned :
    writeReturnsErr (Write ⟨some 0, "b", 5, "s", 10⟩ ⟨[1], [], 1⟩
      [65] 12 12 (some "boom") none none (fun _ _ => "")) "boom" = false ∧
    writeReturnsErr (Write ⟨some 0, "b", 5, "s", 10⟩ ⟨[1], [], 1⟩
      [65] 12 12 none (some "denied") none (fun _ _ => "")) "denied" = false := by
  exact ⟨by decide, by decide⟩

/-- C2 (amended): when rollover is due, a rename failure makes `Write`
panic with that error (it aborts without returning, outside any `defer`,
so the lock is still held), and a reopen failure is silently discarded:
the handle becomes nil and `Write` returns the `fmt.Fprintln`
invalid-handle error with `n = 0`, not the reopen error. -/
theorem write_rollover_failure_panics_or_discards
    (l : TimeRotatingFileHandler) (fs : FS) (p : List Nat) (now now2 : Int)
    (aE : Option String) (f : String → Int → String) (e : String)
    (hd : l.rolloverAt ≤ now) :
    (Write l fs p now now2 (some e) none aE f =
       WriteOutcome.panicked e
         [Event.lock, Event.closeFile,
          Event.rename l.baseName (l.baseName ++ f l.suffix now)]) ∧
    (∀ r, Write l fs p now now2 none (some e) aE f = WriteOutcome.ok r →
       r.err = some invalidFdErr ∧ r.l.fd = none ∧ r.n = 0) := by
  constructor
  · unfold Write doRollover
    rw [if_pos hd]
  · intro r hr
    unfold Write doRollover at hr
    rw [if_pos hd] at hr
    injection hr with h1
    subst h1
    exact ⟨rfl, rfl, rfl⟩

/-- Witness for C2 at a concrete due write: the rename failure `"boom"`
panics, and the reopen failure `"denied"` yields a normal return carrying
the invalid-handle error. -/
theorem write_rollover_failure_panics_or_discards_witness :
    (Write ⟨some 0, "b", 5, "s", 10⟩ ⟨[1], [], 1⟩ [65] 12 12
       (some "boom") none none (fun _ _ => "") =
      WriteOutcome.panicked "boom"
        [Event.lock, Event.closeFile, Event.rename "b" "b"]) ∧
    (∀ r, Write ⟨some 0, "b", 5, "s", 10⟩ ⟨[1], [], 1⟩ [65] 12 12
        none (some "denied") none (fun _ _ => "") = WriteOutcome.ok r →
       r.err = some invalidFdErr ∧ r.l.fd = none ∧ r.n = 0) :=
  ⟨(write_rollover_failure_panics_or_discards ⟨some 0, "b", 5, "s", 10⟩ ⟨[1], [], 1⟩
      [65] 12 12 none (fun _ _ => "") "boom" (by decide)).1,
   fun r hr =>
    (write_rollover_failure_panics_or_discards ⟨some 0, "b", 5, "s", 10⟩ ⟨[1], [], 1⟩
      [65] 12 12 none (fun _ _ => "") "denied" (by decide)).2 r hr⟩

/-- C4 counterexample: with a valid granularity, a directory-creation
failure (`"denied"`) and a successful open, the constructor succeeds —
the `os.MkdirAll` error is discarded, so "parent directory cannot be
created" does not produce a constructor error as the claim requires; and
with an invalid granularity (9) the `MkdirAll` effect has already been
performed before the error return. -/
theorem newLogHandler_mkdir_error_ignored :
    returnsError (newLogHandler "d/f" WhenSecond 1 (some "denied") none 0).1 = false ∧
    (newLogHandler "d/f" 9 1 none none 0).2 = [Event.mkdirAll "d"] := by
  exact ⟨by decide, by decide⟩

/-- C4 (amended): the constructor returns an error exactly when the
granularity is invalid (a `ConfigError`) or `basePath` cannot be opened
(an `IOError`); a directory-creation failure is ignored (its error is
discarded).  With an invalid granularity it returns after the
directory-creation attempt but before any file is created at `basePath`
(no `openFile` effect occurs). -/
theorem newLogHandler_error_conditions
    (b : String) (w m : Int) (mk oe : Option String) (mt : Int) :
    returnsError (newLogHandler b w m mk oe mt).1 = (!validWhen w || oe.isSome) ∧
    (validWhen w = false →
      (newLogHandler b w m mk oe mt).2 = [Event.mkdirAll (pathDir b)]) := by
  unfold newLogHandler validWhen
  cases hw : whenParams w with
  | none => cases oe <;> simp [returnsError]
  | some bs => cases oe <;> simp [returnsError]

/-- Witness for C4 at the invalid granularity 9: the constructor errors
and its only effect is the directory-creation attempt. -/
theorem newLogHandler_error_conditions_witness :
    returnsError (newLogHandler "d/f" 9 1 none none 0).1 = true ∧
    (newLogHandler "d/f" 9 1 none none 0).2 = [Event.mkdirAll (pathDir "d/f")] :=
  ⟨by
    have h := (newLogHandler_error_conditions "d/f" 9 1 none none 0).1
    simpa using h,
   (newLogHandler_error_conditions "d/f" 9 1 none none 0).2 (by decide)⟩

/-- C9: a successful write (valid handle, no append error) appends to the
active file exactly the payload bytes followed by one newline byte and
returns `n = len(p) + 1`. -/
theorem write_appends_payload_newline
    (l : TimeRotatingFileHandler) (fs : FS) (p : List Nat) (now now2 : Int)
    (rE oE : Option String) (f : String → Int → String)
    (l1 : TimeRotatingFileHandler) (fs1 : FS) (evs : List Event) (k : Nat)
    (h : doRollover l fs now now2 rE oE f = RolloverOutcome.ok l1 fs1 evs)
    (hfd : l1.fd = some k) :
    Write l fs p now now2 rE oE none f =
      WriteOutcome.ok
        { l := l1, fs := { fs1 with active := fs1.active ++ p ++ [10] },
          n := (p.length : Int) + 1, err := none,
          evs := Event.lock :: evs ++ [Event.unlock, Event.append (p ++ [10])] } := by
  rw [write_ok_of_rollover_ok l fs p now now2 rE oE none f l1 fs1 evs h, hfd]
  rfl

/-- Witness for C9: payload `[65, 66]` appended as `[65, 66, 10]` with
`n = 3` at a concrete not-yet-due writer. -/
theorem write_appends_payload_newline_witness :
    Write ⟨some 0, "b", 5, "s", 10⟩ ⟨[1], [], 1⟩ [65, 66] 3 3
      none none none (fun _ _ => "") =
      WriteOutcome.ok
        { l := ⟨some 0, "b", 5, "s", 10⟩,
          fs := ⟨[1, 65, 66, 10], [], 1⟩,
          n := 3, err := none,
          evs := [Event.lock, Event.unlock, Event.append [65, 66, 10]] } :=
  write_appends_payload_newline ⟨some 0, "b", 5, "s", 10⟩ ⟨[1], [], 1⟩ [65, 66] 3 3
    none none (fun _ _ => "") ⟨some 0, "b", 5, "s", 10⟩ ⟨[1], [], 1⟩ [] 0 rfl rfl

/-- C10: a `Write` at a clock time strictly before `rolloverAt` leaves
every writer field (`fd`, `baseName`, `interval`, `suffix`, `rolloverAt`)
unchanged; its only effect is appending the payload plus newline to the
active file (rotated files and the handle counter are untouched). -/
theorem write_not_due_frame
    (l : TimeRotatingFileHandler) (fs : FS) (p : List Nat) (now now2 : Int)
    (rE oE : Option String) (f : String → Int → String) (k : Nat)
    (hnd : now < l.rolloverAt) (hfd : l.fd = some k) :
    Write l fs p now now2 rE oE none f =
      WriteOutcome.ok
        { l := l, fs := { fs with active := fs.active ++ p ++ [10] },
          n := (p.length : Int) + 1, err := none,
          evs := [Event.lock, Event.unlock, Event.append (p ++ [10])] } := by
  have h : doRollover l fs now now2 rE oE f = RolloverOutcome.ok l fs [] := by
    unfold doRollover
    rw [if_neg (by omega)]
  rw [write_ok_of_rollover_ok l fs p now now2 rE oE none f l fs [] h, hfd]
  rfl

/-- Witness for C10: at clock 3 with `rolloverAt = 10` the writer record
is returned unchanged and only the active file grows. -/
theorem write_not_due_frame_witness :
    Write ⟨some 7, "b", 5, "s", 10⟩ ⟨[2], [("x", [1])], 3⟩ [65] 3 9
      (some "boom") (some "denied") none (fun _ _ => "") =
      WriteOutcome.ok
        { l := ⟨some 7, "b", 5, "s", 10⟩,
          fs := ⟨[2, 65, 10], [("x", [1])], 3⟩,
          n := 2, err := none,
          evs := [Event.lock, Event.unlock, Event.append [65, 10]] } :=
  write_not_due_frame ⟨some 7, "b", 5, "s", 10⟩ ⟨[2], [("x", [1])], 3⟩ [65] 3 9
    (some "boom") (some "denied") (fun _ _ => "") 7 (by decide) rfl

end KongLog
